import Mathlib

/-!
Verification development for `monitor-sc.py`, an Apache service / host
resource monitor.  The Python source is shallowly embedded: every external
effect (systemctl queries, socket connect, HTTP request, psutil sampling,
file IO) is represented by an oracle recorded in an environment structure,
with `Except Unit` modelling a raised Python exception, and the functions of
the source are translated into pure Lean functions over those oracles.
-/

deriving instance DecidableEq for Except

namespace MonitorSc

/-- Severity levels used in `final_status`: the ordering is OK < WARN < CRIT. -/
inductive Status where
  | OK
  | WARN
  | CRIT
deriving DecidableEq, Fintype

/-- Numeric rank of a severity, realising the ordering OK < WARN < CRIT. -/
def Status.rank : Status → Nat
  | .OK => 0
  | .WARN => 1
  | .CRIT => 2

/-- Join of two severities: the worse of the two. -/
def Status.max (a b : Status) : Status :=
  if b.rank ≤ a.rank then a else b

/-- Aggregate severity of a list of per-probe severity hints: their maximum,
starting from OK. -/
def aggregate (l : List Status) : Status :=
  l.foldl Status.max Status.OK

/-- Raw outcome of a successful `requests.get`: status code and elapsed time
(seconds, already rounded as in the source). -/
structure HttpResp where
  code : Int
  time : Rat
deriving DecidableEq

/-- Value recorded under `checks.http`: either `{code, time}` or the string
marker `"error"` when the request raised. -/
inductive HttpCheck where
  | resp (code : Int) (time : Rat)
  | err
deriving DecidableEq

/-- The `results` dictionary built by `run_auto_checks` (the automated-run
report that is serialised to one JSON line). -/
structure Report where
  timestamp : String
  hostname : String
  ip : String
  service : String
  port_80 : String
  http : HttpCheck
  cpu : Rat
  ram : Rat
  disk : Rat
  final_status : Status
deriving DecidableEq

/-- Oracles for every external call made on the automated path.  A value
`Except.error ()` means the corresponding Python call raised an exception.
`http_get` is consumed inside a `try/except`, the other oracles are not
guarded in the source, so their exceptions propagate. -/
structure AutoEnv where
  timestamp : String
  hostname : String
  ip : String
  status_rc : String → Except Unit Int
  is_active : String → Except Unit String
  connect_ex : Except Unit Int
  http_get : Except Unit HttpResp
  cpu_sample : Except Unit Rat
  mem_sample : Except Unit Rat
  disk_sample : Except Unit Rat

/-- Candidate Apache service names, in probe order. -/
def SERVICES : List String := ["apache2", "httpd"]

/-- Loop body of `detect_apache`: first candidate whose
`systemctl status` exits 0. -/
def detect_from (env : AutoEnv) : List String → Except Unit (Option String)
  | [] => .ok none
  | s :: rest =>
    match env.status_rc s with
    | .error e => .error e
    | .ok rc => if rc == 0 then .ok (some s) else detect_from env rest

/-- Function `detect_apache`: detects which Apache service variant is installed. -/
def detect_apache (env : AutoEnv) : Except Unit (Option String) :=
  detect_from env SERVICES

/-- Service-state check of `run_auto_checks`: records the `systemctl
is-active` output (or `"not_found"`) and the status update it causes. -/
def service_check (env : AutoEnv) : Option String → Except Unit (String × Status)
  | some svc =>
    match env.is_active svc with
    | .error e => .error e
    | .ok active => .ok (active, if active ≠ "active" then Status.CRIT else Status.OK)
  | none => .ok ("not_found", Status.CRIT)

/-- Escalation applied by the HTTP branch of `run_auto_checks` when a
response was obtained: `code ≥ 500` forces CRIT, `400 ≤ code` sets WARN
unless the running status is already CRIT. -/
def http_update (st : Status) (code : Int) : Status :=
  if code ≥ 500 then Status.CRIT
  else if code ≥ 400 ∧ st ≠ Status.CRIT then Status.WARN
  else st

/-- HTTP check of `run_auto_checks`: the whole request is inside
`try/except`, a raise is recorded as the `"error"` marker with CRIT. -/
def http_check (env : AutoEnv) (st : Status) : HttpCheck × Status :=
  match env.http_get with
  | .ok r => (.resp r.code r.time, http_update st r.code)
  | .error _ => (.err, Status.CRIT)

/-- Escalation applied by the resource branch of `run_auto_checks`:
any metric above 95 forces CRIT; otherwise CPU/RAM above 80 or disk above
90 sets WARN unless the running status is already CRIT. -/
def resource_update (st : Status) (cpu mem disk : Rat) : Status :=
  if cpu > 95 ∨ mem > 95 ∨ disk > 95 then Status.CRIT
  else if cpu > 80 ∨ mem > 80 ∨ disk > 90 then
    (if st ≠ Status.CRIT then Status.WARN else st)
  else st

/-- Function `run_auto_checks`: the automated (cron) path.  Returns the report that
is appended to the automated journal, or `Except.error ()` when one of the
unguarded external calls raised. -/
def run_auto_checks (env : AutoEnv) : Except Unit Report :=
  match detect_apache env with
  | .error e => .error e
  | .ok service =>
    match service_check env service with
    | .error e => .error e
    | .ok (serviceVal, st1) =>
      match env.connect_ex with
      | .error e => .error e
      | .ok rc =>
        let port_open : Bool := rc == 0
        let st2 := if !port_open then Status.CRIT else st1
        let (httpVal, st3) := http_check env st2
        match env.cpu_sample with
        | .error e => .error e
        | .ok cpu =>
          match env.mem_sample with
          | .error e => .error e
          | .ok mem =>
            match env.disk_sample with
            | .error e => .error e
            | .ok disk =>
              .ok { timestamp := env.timestamp
                    hostname := env.hostname
                    ip := env.ip
                    service := serviceVal
                    port_80 := if port_open then "open" else "closed"
                    http := httpVal
                    cpu := cpu
                    ram := mem
                    disk := disk
                    final_status := resource_update st3 cpu mem disk }

/-- Which candidate service a given `systemctl status` return-code oracle
resolves: the first with exit code 0. -/
def detected (rcs : String → Int) : Option String :=
  SERVICES.find? (fun s => rcs s == 0)

/-- Severity hint of the service probe. -/
def service_hint (service : Option String) (act : String → String) : Status :=
  match service with
  | some svc => if act svc ≠ "active" then Status.CRIT else Status.OK
  | none => Status.CRIT

/-- Severity hint of the port-80 probe. -/
def port_hint (rc : Int) : Status :=
  if rc == 0 then Status.OK else Status.CRIT

/-- Severity hint of the HTTP probe. -/
def http_hint : Except Unit HttpResp → Status
  | .ok r =>
    if r.code ≥ 500 then Status.CRIT
    else if r.code ≥ 400 then Status.WARN
    else Status.OK
  | .error _ => Status.CRIT

/-- Severity hint of the resource probe. -/
def resource_hint (cpu mem disk : Rat) : Status :=
  if cpu > 95 ∨ mem > 95 ∨ disk > 95 then Status.CRIT
  else if cpu > 80 ∨ mem > 80 ∨ disk > 90 then Status.WARN
  else Status.OK

/-- An environment in which every unguarded external call succeeds; the HTTP
request may still raise (that raise is caught by the source). -/
def pureEnv (ts hn ip : String) (rcs : String → Int) (act : String → String)
    (rc : Int) (http : Except Unit HttpResp) (cpu mem disk : Rat) : AutoEnv :=
  { timestamp := ts
    hostname := hn
    ip := ip
    status_rc := fun s => .ok (rcs s)
    is_active := fun s => .ok (act s)
    connect_ex := .ok rc
    http_get := http
    cpu_sample := .ok cpu
    mem_sample := .ok mem
    disk_sample := .ok disk }

theorem detect_from_ok (env : AutoEnv) (rcs : String → Int)
    (hrc : env.status_rc = fun s => Except.ok (rcs s)) (l : List String) :
    detect_from env l = .ok (l.find? (fun s => rcs s == 0)) := by
  induction l with
  | nil => rfl
  | cons s rest ih =>
    simp only [detect_from, hrc, List.find?]
    cases h : rcs s == 0 <;> simp [h, ih]

theorem detect_apache_ok (env : AutoEnv) (rcs : String → Int)
    (hrc : env.status_rc = fun s => Except.ok (rcs s)) :
    detect_apache env = .ok (detected rcs) :=
  detect_from_ok env rcs hrc SERVICES

theorem detect_apache_pure (ts hn ip : String) (rcs : String → Int) (act : String → String)
    (rc : Int) (http : Except Unit HttpResp) (cpu mem disk : Rat) :
    detect_apache (pureEnv ts hn ip rcs act rc http cpu mem disk) = .ok (detected rcs) :=
  detect_apache_ok _ rcs rfl

/-- Characterisation of the automated run on an environment whose unguarded
calls all succeed: the report it appends, field by field. -/
theorem run_auto_checks_pure (ts hn ip : String) (rcs : String → Int) (act : String → String)
    (rc : Int) (http : Except Unit HttpResp) (cpu mem disk : Rat) :
    run_auto_checks (pureEnv ts hn ip rcs act rc http cpu mem disk) =
      .ok { timestamp := ts
            hostname := hn
            ip := ip
            service := (match detected rcs with
                        | some svc => act svc
                        | none => "not_found")
            port_80 := if rc == 0 then "open" else "closed"
            http := (match http with
                     | .ok r => HttpCheck.resp r.code r.time
                     | .error _ => HttpCheck.err)
            cpu := cpu
            ram := mem
            disk := disk
            final_status :=
              resource_update
                (match http with
                 | .ok r =>
                   http_update
                     (if !(rc == 0) then Status.CRIT
                      else service_hint (detected rcs) act) r.code
                 | .error _ => Status.CRIT)
                cpu mem disk } := by
  unfold run_auto_checks
  rw [detect_apache_pure]
  cases hd : detected rcs <;>
    cases http <;>
      simp [service_check, http_check, http_update, service_hint, pureEnv]

theorem max_ok_left (h : Status) : Status.max Status.OK h = h := by
  cases h <;> rfl

theorem max_crit_right (st : Status) : Status.max st Status.CRIT = Status.CRIT := by
  cases st <;> rfl

theorem max_comm (a b : Status) : a.max b = b.max a := by
  cases a <;> cases b <;> rfl

theorem max_left_swap (b x y : Status) : (b.max x).max y = (b.max y).max x := by
  cases b <;> cases x <;> cases y <;> rfl

theorem port_step (st : Status) (rc : Int) :
    (if !(rc == 0) then Status.CRIT else st) = st.max (port_hint rc) := by
  cases h : rc == 0 <;> cases st <;> simp [h, port_hint, Status.max, Status.rank]

theorem http_step (st : Status) (code : Int) :
    http_update st code =
      st.max (if code ≥ 500 then Status.CRIT
              else if code ≥ 400 then Status.WARN
              else Status.OK) := by
  unfold http_update
  by_cases h5 : code ≥ 500
  · simp [h5, max_crit_right]
  · by_cases h4 : code ≥ 400 <;>
      cases st <;> simp [h5, h4, Status.max, Status.rank]

theorem resource_step (st : Status) (cpu mem disk : Rat) :
    resource_update st cpu mem disk = st.max (resource_hint cpu mem disk) := by
  unfold resource_update resource_hint
  by_cases hhard : cpu > 95 ∨ mem > 95 ∨ disk > 95
  · simp [hhard, max_crit_right]
  · by_cases hsoft : cpu > 80 ∨ mem > 80 ∨ disk > 90 <;>
      cases st <;> simp [hhard, hsoft, Status.max, Status.rank]

theorem foldl_max_perm {l₁ l₂ : List Status} (h : l₁.Perm l₂) :
    ∀ b : Status, l₁.foldl Status.max b = l₂.foldl Status.max b := by
  induction h with
  | nil => intro b; rfl
  | cons x _ ih => intro b; simpa [List.foldl] using ih (b.max x)
  | swap x y l => intro b; simp [List.foldl, max_left_swap]
  | trans _ _ ih₁ ih₂ => intro b; rw [ih₁ b, ih₂ b]

theorem aggregate_perm {l₁ l₂ : List Status} (h : l₁.Perm l₂) :
    aggregate l₁ = aggregate l₂ :=
  foldl_max_perm h Status.OK

/-- Claim C1: on every automated run, the final status of the report equals the
maximum over the four per-probe severity hints under OK < WARN < CRIT, and
that aggregate is invariant under any reordering of the escalation
updates (the aggregation is a fold of a commutative-associative join). -/
theorem final_status_is_order_independent_max_of_hints
    (ts hn ip : String) (rcs : String → Int) (act : String → String)
    (rc : Int) (http : Except Unit HttpResp) (cpu mem disk : Rat) :
    (run_auto_checks (pureEnv ts hn ip rcs act rc http cpu mem disk)).map Report.final_status
      = Except.ok (aggregate
          [service_hint (detected rcs) act, port_hint rc, http_hint http,
           resource_hint cpu mem disk])
    ∧ ∀ l₁ l₂ : List Status, l₁.Perm l₂ → aggregate l₁ = aggregate l₂ := by
  constructor
  · rw [run_auto_checks_pure]
    simp only [Except.map, aggregate, List.foldl, max_ok_left]
    rw [resource_step]
    congr 1
    cases http with
    | ok r =>
      simp only [http_hint]
      rw [http_step, port_step]
    | error e =>
      simp only [http_hint, max_crit_right]
  · intro l₁ l₂ h
    exact aggregate_perm h

/-- Concrete instantiation of claim C1: the final status of a run with one
WARN hint evaluates to that maximum, and a concrete transposition of two
hint lists yields the same aggregate. -/
theorem final_status_is_order_independent_max_of_hints_witness :
    aggregate [Status.WARN, Status.OK, Status.CRIT]
      = aggregate [Status.OK, Status.WARN, Status.CRIT] :=
  (final_status_is_order_independent_max_of_hints
      "t" "h" "i" (fun _ => 0) (fun _ => "active") 0
      (Except.ok { code := 200, time := 1 }) 10 10 10).2
    [Status.WARN, Status.OK, Status.CRIT]
    [Status.OK, Status.WARN, Status.CRIT] (by decide)

theorem http_update_crit (code : Int) : http_update Status.CRIT code = Status.CRIT := by
  unfold http_update
  split_ifs with h1 h2
  · rfl
  · exact absurd rfl h2.2
  · rfl

theorem resource_update_crit (cpu mem disk : Rat) :
    resource_update Status.CRIT cpu mem disk = Status.CRIT := by
  unfold resource_update
  split_ifs with h1 h2 h3
  · rfl
  · exact absurd rfl h3
  · rfl
  · rfl

/-- Claim C7: when no candidate service is resolved, every report the
automated run produces has final status CRIT, whatever the port, HTTP and
resource probes returned, and the service check records `"not_found"`. -/
theorem service_absent_forces_crit (env : AutoEnv) (r : Report)
    (hdetect : detect_apache env = Except.ok none)
    (hrun : run_auto_checks env = Except.ok r) :
    r.final_status = Status.CRIT ∧ r.service = "not_found" := by
  unfold run_auto_checks at hrun
  rw [hdetect] at hrun
  cases hce : env.connect_ex with
  | error e => simp [hce, service_check] at hrun
  | ok rc =>
    cases hhttp : env.http_get with
    | error e =>
      cases hcpu : env.cpu_sample with
      | error e2 => simp [hce, hhttp, hcpu, service_check, http_check] at hrun
      | ok cpu =>
        cases hmem : env.mem_sample with
        | error e2 => simp [hce, hhttp, hcpu, hmem, service_check, http_check] at hrun
        | ok mem =>
          cases hdisk : env.disk_sample with
          | error e2 =>
            simp [hce, hhttp, hcpu, hmem, hdisk, service_check, http_check] at hrun
          | ok disk =>
            simp only [hce, hhttp, hcpu, hmem, hdisk, service_check, http_check,
              ite_self, resource_update_crit, Except.ok.injEq] at hrun
            subst hrun
            exact ⟨rfl, rfl⟩
    | ok resp =>
      cases hcpu : env.cpu_sample with
      | error e2 => simp [hce, hhttp, hcpu, service_check, http_check] at hrun
      | ok cpu =>
        cases hmem : env.mem_sample with
        | error e2 => simp [hce, hhttp, hcpu, hmem, service_check, http_check] at hrun
        | ok mem =>
          cases hdisk : env.disk_sample with
          | error e2 =>
            simp [hce, hhttp, hcpu, hmem, hdisk, service_check, http_check] at hrun
          | ok disk =>
            simp only [hce, hhttp, hcpu, hmem, hdisk, service_check, http_check,
              ite_self, http_update_crit, resource_update_crit, Except.ok.injEq] at hrun
            subst hrun
            exact ⟨rfl, rfl⟩

/-- Environment in which neither candidate service resolves and every other
probe is nominal. -/
def envC7 : AutoEnv :=
  { timestamp := "t"
    hostname := "h"
    ip := "i"
    status_rc := fun _ => .ok 1
    is_active := fun _ => .ok "active"
    connect_ex := .ok 0
    http_get := .ok { code := 200, time := 1 }
    cpu_sample := .ok 10
    mem_sample := .ok 10
    disk_sample := .ok 10 }

/-- The report envC7 produces. -/
def reportC7 : Report :=
  { timestamp := "t"
    hostname := "h"
    ip := "i"
    service := "not_found"
    port_80 := "open"
    http := .resp 200 1
    cpu := 10
    ram := 10
    disk := 10
    final_status := Status.CRIT }

/-- Concrete instantiation of claim C7: with the service absent and all
other probes nominal, the produced report is CRIT with the not-found
marker. -/
theorem service_absent_forces_crit_witness :
    reportC7.final_status = Status.CRIT ∧ reportC7.service = "not_found" :=
  service_absent_forces_crit envC7 reportC7 (by decide) (by decide)

/-- Claim C8: the resource check escalates to CRIT when any metric exceeds
95, otherwise to WARN when CPU or RAM exceed 80 or disk exceeds 90 and no
CRIT is already present, otherwise it leaves the running severity
unchanged; concretely CPU=96, RAM=10, Disk=10 with HTTP 200 aggregates to
CRIT and CPU=85, RAM=10, Disk=10 with HTTP 200 aggregates to WARN. -/
theorem resource_thresholds_rule_and_examples :
    (∀ (st : Status) (cpu mem disk : Rat),
        resource_update st cpu mem disk =
          if cpu > 95 ∨ mem > 95 ∨ disk > 95 then Status.CRIT
          else if (cpu > 80 ∨ mem > 80 ∨ disk > 90) ∧ st ≠ Status.CRIT then Status.WARN
          else st)
    ∧ (run_auto_checks (pureEnv "t" "h" "i" (fun _ => 0) (fun _ => "active") 0
          (Except.ok { code := 200, time := 1 }) 96 10 10)).map Report.final_status
        = Except.ok Status.CRIT
    ∧ (run_auto_checks (pureEnv "t" "h" "i" (fun _ => 0) (fun _ => "active") 0
          (Except.ok { code := 200, time := 1 }) 85 10 10)).map Report.final_status
        = Except.ok Status.WARN := by
  refine ⟨?_, by decide, by decide⟩
  intro st cpu mem disk
  unfold resource_update
  by_cases h1 : cpu > 95 ∨ mem > 95 ∨ disk > 95
  · simp [h1]
  · by_cases h2 : cpu > 80 ∨ mem > 80 ∨ disk > 90 <;> cases st <;> simp [h1, h2]

/-- Environment whose resource sampling raises while everything else is
nominal: the exception is not caught anywhere on the automated path. -/
def envC5 : AutoEnv :=
  { timestamp := "t"
    hostname := "h"
    ip := "i"
    status_rc := fun _ => .ok 0
    is_active := fun _ => .ok "active"
    connect_ex := .ok 0
    http_get := .ok { code := 200, time := 1 }
    cpu_sample := .error ()
    mem_sample := .ok 10
    disk_sample := .ok 10 }

/-- Counterexample to claim C5: a failure inside the resource probe (the
CPU sampling call raising) is not captured as an error-marker result; it
propagates and aborts the whole run, so no report is produced. -/
theorem probe_failure_aborts_run_counterexample :
    run_auto_checks envC5 = Except.error () := by decide

/-- Claim C5 (amended): only the HTTP probe captures its own failure — a
raised HTTP request is recorded as the `"error"` marker with CRIT final
status while the remaining probes still run and the report is produced —
whereas a failure inside the resource sampling propagates as an exception
and aborts the run without a report. -/
theorem only_http_failure_is_captured
    (ts hn ip : String) (rcs : String → Int) (act : String → String)
    (rc : Int) (http : Except Unit HttpResp) (cpu mem disk : Rat) :
    (run_auto_checks (pureEnv ts hn ip rcs act rc (Except.error ()) cpu mem disk)).map
        (fun r => (r.http, r.final_status, r.cpu, r.ram, r.disk))
      = Except.ok (HttpCheck.err, Status.CRIT, cpu, mem, disk)
    ∧ run_auto_checks
        { pureEnv ts hn ip rcs act rc http cpu mem disk with cpu_sample := Except.error () }
      = Except.error () := by
  constructor
  · rw [run_auto_checks_pure]
    simp [Except.map, resource_update_crit]
  · unfold run_auto_checks
    rw [detect_apache_ok _ rcs rfl]
    cases hd : detected rcs <;> cases http <;>
      simp [service_check, http_check, pureEnv]

/-- Function `clean_log_file`: one pass over the journal lines.  A line whose JSON
and timestamp parse (`parse line = some log_date`) is kept when
`now - log_date ≤ max_age`; a line that fails to parse is skipped
(`except Exception: continue`); the file is rewritten with exactly the kept
lines.  Timestamp parsing is the external `json.loads` +
`datetime.fromisoformat` pipeline, abstracted as the `parse` oracle, and
times are integers in arbitrary fixed units. -/
def clean_log_file (parse : String → Option Int) (now max_age : Int) :
    List String → List String
  | [] => []
  | line :: rest =>
    match parse line with
    | some log_date =>
      if now - log_date ≤ max_age then line :: clean_log_file parse now max_age rest
      else clean_log_file parse now max_age rest
    | none => clean_log_file parse now max_age rest

/-- The retention window `timedelta(days=7)` of the automated journal, in
days. -/
def seven_days : Int := 7

/-- Function `clean_old_logs`: sweeps the automated journal with the 7-day window
(the manual log is never swept). -/
def clean_old_logs (parse : String → Option Int) (now : Int)
    (auto_lines : List String) : List String :=
  clean_log_file parse now seven_days auto_lines

/-- The keep-condition of the sweep, as a boolean predicate on one line. -/
def keep_line (parse : String → Option Int) (now max_age : Int) (line : String) : Bool :=
  match parse line with
  | some log_date => decide (now - log_date ≤ max_age)
  | none => false

theorem clean_log_file_eq_filter (parse : String → Option Int) (now max_age : Int)
    (lines : List String) :
    clean_log_file parse now max_age lines = lines.filter (keep_line parse now max_age) := by
  induction lines with
  | nil => rfl
  | cons line rest ih =>
    simp only [clean_log_file, List.filter, keep_line]
    cases hp : parse line with
    | none => simp [ih]
    | some log_date =>
      by_cases h : now - log_date ≤ max_age <;> simp [h, ih]

/-- Sample journal, timestamps in days: entries of ages 0, 3, 6, 8 and 10
days before `demo_now`, plus one unparseable line. -/
def demo_parse : String → Option Int
  | "entry_age0" => some 10
  | "entry_age3" => some 7
  | "entry_age6" => some 4
  | "entry_age7" => some 3
  | "entry_age8" => some 2
  | "entry_age10" => some 0
  | _ => none

/-- Reference sweep time for the sample journal. -/
def demo_now : Int := 10

/-- The sample journal file contents, one string per record. -/
def demo_journal : List String :=
  ["entry_age0", "entry_age3", "corrupt line", "entry_age6", "entry_age8", "entry_age10"]

/-- Claim C4: a retention sweep with the 7-day window keeps exactly the
parseable records whose age is within the window (it is a filter), keeps
them in their original relative order (the output is a sublist of the
input), is idempotent at a fixed reference time, and on a journal with
records aged 0, 3, 6, 8 and 10 days plus a corrupt record it keeps exactly
the records aged 0, 3 and 6 days, in order, without failing. -/
theorem retention_sweep_filters_ordered_idempotent
    (parse : String → Option Int) (now max_age : Int) (lines : List String) :
    clean_log_file parse now max_age lines = lines.filter (keep_line parse now max_age)
    ∧ (clean_log_file parse now max_age lines).Sublist lines
    ∧ clean_log_file parse now max_age (clean_log_file parse now max_age lines)
        = clean_log_file parse now max_age lines
    ∧ clean_old_logs demo_parse demo_now demo_journal
        = ["entry_age0", "entry_age3", "entry_age6"] := by
  refine ⟨clean_log_file_eq_filter parse now max_age lines, ?_, ?_, by decide⟩
  · rw [clean_log_file_eq_filter]
    exact List.filter_sublist lines
  · rw [clean_log_file_eq_filter, clean_log_file_eq_filter,
      List.filter_filter]
    apply List.filter_congr
    intro line _
    cases h : keep_line parse now max_age line <;> simp [h]

/-- Claim C10: a record exactly as old as the retention window (age equal
to 7 days at sweep time) satisfies the keep-condition `now - t ≤ max_age`
and is retained by the sweep, not dropped. -/
theorem boundary_age_record_is_kept
    (parse : String → Option Int) (now t : Int) (line : String) (rest : List String)
    (hparse : parse line = some t) (hage : now - t = seven_days) :
    clean_old_logs parse now (line :: rest) = line :: clean_old_logs parse now rest := by
  unfold clean_old_logs
  simp [clean_log_file, hparse, hage]

/-- Concrete instantiation of claim C10: at sweep time 10 a record with
timestamp 3 (exactly 7 days old) is kept by the sweep. -/
theorem boundary_age_record_is_kept_witness :
    clean_old_logs demo_parse demo_now ["entry_age7"]
      = "entry_age7" :: clean_old_logs demo_parse demo_now [] :=
  boundary_age_record_is_kept demo_parse demo_now 3 "entry_age7" [] rfl rfl

/-- How one call to `run_sudo` ends, seen from its caller. -/
inductive SudoOutcome where
  | ret (output : String)
  | calledProcessError (code : Int) (output : String)
  | exn
deriving DecidableEq

/-- The external events of one `run_sudo` call.  `tempfile.mkstemp` creates
the relay file; writing the askpass script and `os.chmod` happen before the
`try` block and may raise; `exec_result` is the `subprocess.check_output`
call on `sudo -A`, which raises (`Except.error`) or yields the elevated
exit code and combined output of the elevated command. -/
structure SudoWorld where
  write_fails : Bool
  chmod_fails : Bool
  exec_result : Except Unit (Int × String)

/-- Function `run_sudo`: returns the outcome seen by the caller together with
whether the relay file still exists on disk after the call.  The file is
created by `mkstemp`; `os.remove` runs in the `finally` clause guarding
only the `check_output` call, and `check_output` raises
`CalledProcessError` whenever the exit code is non-zero. -/
def run_sudo (w : SudoWorld) : SudoOutcome × Bool :=
  if w.write_fails then (.exn, true)
  else if w.chmod_fails then (.exn, true)
  else
    match w.exec_result with
    | .error _ => (.exn, false)
    | .ok (code, out) =>
      if code = 0 then (.ret out, false)
      else (.calledProcessError code out, false)

/-- A `run_sudo` call whose setup succeeds and whose elevated command exits
with code 1. -/
def sudoWorldNonzero : SudoWorld :=
  { write_fails := false, chmod_fails := false, exec_result := .ok (1, "boom") }

/-- Counterexample to claim C2: when the elevation tool exits non-zero,
`run_sudo` does not return the combined output to the caller — the
unguarded `subprocess.check_output` raises `CalledProcessError`. -/
theorem sudo_nonzero_raises_counterexample :
    (run_sudo sudoWorldNonzero).1 = SudoOutcome.calledProcessError 1 "boom"
    ∧ (run_sudo sudoWorldNonzero).1 ≠ SudoOutcome.ret "boom" := by
  exact ⟨rfl, by decide⟩

/-- Claim C2 (amended): when the elevation tool exits non-zero, `run_sudo`
raises `CalledProcessError` carrying the exit code and the combined output
instead of returning the output; the relay file is still removed.  (Only
`run_command`, not `run_sudo`, converts a non-zero exit into returned text.) -/
theorem sudo_nonzero_exit_raises (w : SudoWorld) (code : Int) (out : String)
    (hw : w.write_fails = false) (hc : w.chmod_fails = false)
    (he : w.exec_result = Except.ok (code, out)) (hnz : code ≠ 0) :
    run_sudo w = (SudoOutcome.calledProcessError code out, false) := by
  unfold run_sudo
  rw [hw, hc, he]
  simp [hnz]

/-- Concrete instantiation of the amended claim C2 at exit code 1. -/
theorem sudo_nonzero_exit_raises_witness :
    run_sudo sudoWorldNonzero = (SudoOutcome.calledProcessError 1 "boom", false) :=
  sudo_nonzero_exit_raises sudoWorldNonzero 1 "boom" rfl rfl rfl (by decide)

/-- A `run_sudo` call in which writing the askpass script raises (for
example the filesystem is full): this happens before the `try` block. -/
def sudoWorldWriteFails : SudoWorld :=
  { write_fails := true, chmod_fails := false, exec_result := .ok (0, "out") }

/-- Counterexample to claim C3: if an exception is raised while the relay
file is being set up (writing the script or `chmod`, both outside the
`try/finally`), the call finishes by propagating that exception with the
relay file still existing on disk. -/
theorem relay_file_leaks_on_setup_failure_counterexample :
    run_sudo sudoWorldWriteFails = (SudoOutcome.exn, true) := rfl

/-- Claim C3 (amended): once the relay-file setup (script write and chmod)
has succeeded, the relay file no longer exists after the call on every exit
path — normal return, non-zero exit of the elevated command, and an
exception raised by the elevated invocation itself — because `os.remove`
runs in the `finally` clause; but an exception during setup, which happens
before the `try` block, leaves the file on disk. -/
theorem relay_file_removed_after_setup (w : SudoWorld)
    (hw : w.write_fails = false) (hc : w.chmod_fails = false) :
    (run_sudo w).2 = false := by
  unfold run_sudo
  rw [hw, hc]
  cases w.exec_result with
  | error e => rfl
  | ok p =>
    obtain ⟨code, out⟩ := p
    by_cases h : code = 0 <;> simp [h]

/-- A `run_sudo` call whose setup succeeds and whose elevated invocation
itself raises. -/
def sudoWorldExecRaises : SudoWorld :=
  { write_fails := false, chmod_fails := false, exec_result := .error () }

/-- Concrete instantiation of the amended claim C3: the relay file is gone
even when the elevated invocation raises. -/
theorem relay_file_removed_after_setup_witness :
    (run_sudo sudoWorldExecRaises).2 = false :=
  relay_file_removed_after_setup sudoWorldExecRaises rfl rfl

/-- One observable side effect of the manual (interactive) path. -/
inductive Effect where
  | cmd (c : List String)
  | sudo (c : List String)
  | http (url : String)
  | sample
  | logWrite (entry : String)
deriving DecidableEq

/-- Oracles and host state used by the interactive console:
`apache_service` and `error_log` as resolved on mount, whether opening the
manual action log raises, and the results of the external calls. -/
structure ManualEnv where
  hostname : String
  ip : String
  now : String
  apache_service : Option String
  error_log : Option String
  manual_log_fails : Bool
  check_output : List String → Int × String
  sudo_run : List String → Except Unit String
  http_get : Except Unit (Int × Rat)
  cpu : Rat
  ram : Rat
  disk : Rat

/-- The fixed URL the monitor probes. -/
def MONITORED_URL : String := "http://localhost"

/-- Function `run_command`: runs a command and returns its combined output as text; a
`CalledProcessError` (non-zero exit) is caught and its output returned, so
the exit code never matters to the caller. -/
def run_command (check_output : List String → Int × String) (c : List String) : String :=
  (check_output c).2

/-- The line `write_manual_log` appends to the manual action log. -/
def manual_log_line (env : ManualEnv) (action : String) : String :=
  env.now ++ " - " ++ env.hostname ++ " (" ++ env.ip ++ ") - " ++ action

/-- Function `handle_option`: dispatch of one selected menu option.  Returns the
side effects performed and either the textual result shown in the output
panel or `Except.error ()` when an uncaught exception propagates (the
action-log write raising, or `run_sudo` raising). -/
def handle_option (env : ManualEnv) (opt : String) : List Effect × Except Unit String :=
  match env.apache_service with
  | none => ([], .ok "Apache no disponible")
  | some svc =>
    if env.manual_log_fails then ([], .error ())
    else
      let logEff := Effect.logWrite (manual_log_line env opt)
      if opt = "Estado del servicio" then
        ([logEff, .cmd ["systemctl", "status", svc, "--no-pager"]],
          .ok (run_command env.check_output ["systemctl", "status", svc, "--no-pager"]))
      else if opt = "Reload Apache" then
        ([logEff, .sudo ["systemctl", "reload", svc]],
          match env.sudo_run ["systemctl", "reload", svc] with
          | .ok _ => .ok "✔ Apache recargado"
          | .error e => .error e)
      else if opt = "Restart Apache" then
        ([logEff, .sudo ["systemctl", "restart", svc]],
          match env.sudo_run ["systemctl", "restart", svc] with
          | .ok _ => .ok "✔ Apache reiniciado"
          | .error e => .error e)
      else if opt = "Uptime" then
        ([logEff, .cmd ["systemctl", "show", svc, "--property=ActiveEnterTimestamp"]],
          .ok (run_command env.check_output
            ["systemctl", "show", svc, "--property=ActiveEnterTimestamp"]))
      else if opt = "Puertos escuchando" then
        ([logEff, .sudo ["ss", "-lntp"]],
          match env.sudo_run ["ss", "-lntp"] with
          | .ok out => .ok out
          | .error e => .error e)
      else if opt = "Uso de disco" then
        ([logEff, .cmd ["df", "-h"]], .ok (run_command env.check_output ["df", "-h"]))
      else if opt = "Logs (error.log)" then
        match env.error_log with
        | some p =>
          ([logEff, .cmd ["tail", "-n", "30", p]],
            .ok (run_command env.check_output ["tail", "-n", "30", p]))
        | none => ([logEff], .ok "No se encontró error.log")
      else if opt = "Recursos y HTTP" then
        let httpLine :=
          match env.http_get with
          | .ok (code, t) => "HTTP " ++ toString code ++ " (" ++ toString t ++ "s)"
          | .error _ => "HTTP ERROR"
        ([logEff, .http MONITORED_URL, .sample],
          .ok (String.intercalate "\n"
            [httpLine,
             "CPU: " ++ toString env.cpu ++ "%",
             "RAM: " ++ toString env.ram ++ "%",
             "Disco /: " ++ toString env.disk ++ "%"]))
      else ([logEff], .ok "Opción no válida")

/-- Result of one selection event in the interactive console. -/
structure SelectResult where
  exited : Bool
  effects : List Effect
  outcome : Except Unit (Option String)
deriving DecidableEq

/-- Function `on_list_view_selected`: the selection handler.  `"Salir"` exits the
app immediately without dispatching; any other option is dispatched through
`handle_option` and its text shown in the output panel. -/
def on_list_view_selected (env : ManualEnv) (opt : String) : SelectResult :=
  if opt = "Salir" then
    { exited := true, effects := [], outcome := .ok none }
  else
    let (effs, res) := handle_option env opt
    { exited := false, effects := effs, outcome := res.map some }

/-- Claim C9: selecting the exit action transitions to the terminal state
without writing any action-log entry and without running any command,
probe, or privileged action — the effect list is empty. -/
theorem exit_action_has_no_effects (env : ManualEnv) :
    on_list_view_selected env "Salir" =
      { exited := true, effects := [], outcome := Except.ok none } := by
  simp [on_list_view_selected]

/-- A console state in which Apache was detected but the manual action log
cannot be opened for append. -/
def envLogBroken : ManualEnv :=
  { hostname := "host"
    ip := "10.0.0.2"
    now := "2025-12-20 12:00:00"
    apache_service := some "apache2"
    error_log := some "/var/log/apache2/error.log"
    manual_log_fails := true
    check_output := fun _ => (0, "output")
    sudo_run := fun _ => .ok "ok"
    http_get := .ok (200, 1)
    cpu := 10
    ram := 10
    disk := 10 }

/-- Counterexample to claim C6: with the action log inaccessible,
dispatching the disk-usage action raises out of the handler before the
action runs — nothing is executed and no textual result is returned. -/
theorem broken_log_aborts_dispatch_counterexample :
    on_list_view_selected envLogBroken "Uso de disco" =
      { exited := false, effects := [], outcome := Except.error () } := by decide

/-- Claim C6 (amended): when the action-log file or its directory is
inaccessible, dispatching any interactive action other than exit raises the
I/O error from `write_manual_log` (which `handle_option` calls unguarded
before acting): the action is never executed and no textual result reaches
the caller, instead of degrading to an unpersisted action. -/
theorem broken_log_aborts_dispatch (env : ManualEnv) (svc : String) (opt : String)
    (hsvc : env.apache_service = some svc)
    (hfail : env.manual_log_fails = true)
    (hopt : opt ≠ "Salir") :
    on_list_view_selected env opt =
      { exited := false, effects := [], outcome := Except.error () } := by
  unfold on_list_view_selected handle_option
  rw [if_neg hopt, hsvc]
  simp [hfail, Except.map]

/-- Concrete instantiation of the amended claim C6 at the uptime action. -/
theorem broken_log_aborts_dispatch_witness :
    on_list_view_selected envLogBroken "Uptime" =
      { exited := false, effects := [], outcome := Except.error () } :=
  broken_log_aborts_dispatch envLogBroken "apache2" "Uptime" rfl rfl (by decide)

end MonitorSc
